import Mathlib

/-!
Shallow embedding of `src/app/components/WebRTCCall.tsx` (the call-signaling
state machine and connection-lifecycle manager of the `callfe` repository).

Modelling conventions:
* Session descriptions and ICE candidates are opaque blobs, represented by `Nat`.
* A `MediaStream` is represented by a `Bool` flag (held / not held).
* `RTCPeerConnection` is modelled by the fields this component reads or writes:
  local/remote description slots, the list of successfully applied remote
  candidates, and a closed flag.  `setRemoteDescription` with an answer
  succeeds exactly when the connection is open, has a local offer, and has no
  remote description yet (WebRTC `have-local-offer` signaling state);
  `addIceCandidate` succeeds exactly when the connection is open and a remote
  description has been set (otherwise the browser rejects with
  `InvalidStateError`, which the source catches and logs).
* React state setters (`setCallStatus`, `setRemoteStream`, ...) become pure
  updates of a `CompState` record; every `setCallStatus` call is additionally
  recorded in an `Effects.statusWrites` trace, and every `socket.emit` in an
  `Effects.msgs` trace.
* Fallible async browser operations (`getUserMedia`, `createOffer`,
  `setRemoteDescription`-plus-`createAnswer`) take an explicit `Bool`
  success parameter; the descriptions they would produce are explicit `Nat`
  parameters.
* Replacing `peerManagerRef.current` with a fresh manager while the old
  manager still holds an open `RTCPeerConnection` leaks that connection: it
  stays alive in the browser but is unreachable from the component.  The
  counter `leakedOpenPCs` tracks such connections.
-/

/-- The `CallStatus` union type of the source (line 12). -/
inductive CallStatus where
  | idle
  | connecting
  | incomingCall
  | waitingForAnswer
  | connected
  | callEnded
  | mediaAccessDenied
  | callFailed
  deriving DecidableEq, Repr

/-- The `iceConnectionState` values of an `RTCPeerConnection`. -/
inductive IceState where
  | new
  | checking
  | connected
  | disconnected
  | failed
  | closed
  deriving DecidableEq, Repr

/-- The slice of an `RTCPeerConnection` that `WebRTCCall.tsx` reads or writes. -/
structure RTCPeerConn where
  localDesc : Option Nat
  remoteDesc : Option Nat
  appliedCandidates : List Nat
  closed : Bool
  deriving DecidableEq, Repr

/-- A freshly constructed `RTCPeerConnection` (line 62). -/
def freshPC : RTCPeerConn :=
  { localDesc := none, remoteDesc := none, appliedCandidates := [], closed := false }

/-- The mutable fields of `PeerConnectionManager` (lines 32-51). -/
structure PeerConnectionManager where
  pc : Option RTCPeerConn
  isInitiator : Bool
  remotePeerId : Option String
  deriving DecidableEq, Repr

/-- The `IncomingCallData` interface (lines 7-10). -/
structure IncomingCallData where
  offer : Nat
  callerId : String
  deriving DecidableEq, Repr

/-- The React component state of `WebRTCCall` (lines 173-184), plus the
`leakedOpenPCs` accounting of peer connections dropped without `close()`. -/
structure CompState where
  currentId : String
  targetId : String
  localStream : Bool
  remoteStream : Option Nat
  callStatus : CallStatus
  incomingCallData : Option IncomingCallData
  peerManager : Option PeerConnectionManager
  leakedOpenPCs : Nat
  deriving DecidableEq, Repr

/-- Outbound signaling messages emitted via `socket.emit`. -/
inductive OutMsg where
  | callUser (offer : Nat) (targetId : String)
  | answerCall (answer : Nat) (targetId : String)
  | iceCandidate (cand : Nat) (targetId : String)
  | callEnd (targetId : String)
  deriving DecidableEq, Repr

/-- Observable side effects of one operation: messages emitted on the socket
and the sequence of `setCallStatus` writes, in order. -/
structure Effects where
  msgs : List OutMsg
  statusWrites : List CallStatus
  deriving DecidableEq, Repr

def Effects.nil : Effects := { msgs := [], statusWrites := [] }

def Effects.app (e1 e2 : Effects) : Effects :=
  { msgs := e1.msgs ++ e2.msgs, statusWrites := e1.statusWrites ++ e2.statusWrites }

/-- Source `setCallStatus(st)`: writes the status into component state and records the
externally visible write. -/
def setCallStatus (st : CallStatus) (s : CompState) : CompState × Effects :=
  ({ s with callStatus := st }, { msgs := [], statusWrites := [st] })

/-- Emit one socket message. -/
def emitMsg (m : OutMsg) : Effects := { msgs := [m], statusWrites := [] }

/-- Source `PeerConnectionManager.initPeerConnection` (lines 53-97), invoked on the
manager currently held in `peerManagerRef`.  Stores role and peer id, closes
any `RTCPeerConnection` this manager already holds, creates a fresh one, and
sets status `Connecting...`.  (Track attachment and callback registration have
no observable state of their own; the registered callbacks are modelled by the
`onIceConnectionStateChange` / `localCandidateGathered` transitions below.) -/
def mgrInitPeerConnection (isInit : Bool) (remote : String) (s : CompState) :
    CompState × Effects :=
  match s.peerManager with
  | none => (s, Effects.nil)
  | some _ =>
    -- `if (this.pc) { this.pc.close(); }` — the prior connection held by THIS
    -- manager is closed before being replaced, so it is not leaked.
    let m1 : PeerConnectionManager :=
      { pc := some freshPC, isInitiator := isInit, remotePeerId := some remote }
    setCallStatus CallStatus.connecting { s with peerManager := some m1 }

/-- Source `PeerConnectionManager.createOffer` (lines 99-117).  `offerOk` is whether
`createOffer`/`setLocalDescription` succeed; `offerDesc` the produced offer. -/
def mgrCreateOffer (offerOk : Bool) (offerDesc : Nat) (s : CompState) :
    CompState × Effects :=
  match s.peerManager with
  | none => (s, Effects.nil)
  | some m =>
    match m.pc, m.remotePeerId with
    | some p, some rid =>
      if offerOk then
        let p1 := { p with localDesc := some offerDesc }
        let s1 := { s with peerManager := some { m with pc := some p1 } }
        let (s2, e2) := setCallStatus CallStatus.waitingForAnswer s1
        (s2, (emitMsg (OutMsg.callUser offerDesc rid)).app e2)
      else
        setCallStatus CallStatus.callFailed s
    | _, _ => (s, Effects.nil)

/-- Source `PeerConnectionManager.handleOffer` (lines 119-138).  `ok` is whether the
`createAnswer`/`setLocalDescription` steps succeed; applying the remote offer
additionally requires an open connection with no remote description yet.
On success the answer is sent and status is set to `Connected` immediately;
on any error status is set to `Call Failed`. -/
def mgrHandleOffer (ok : Bool) (offer ansDesc : Nat) (s : CompState) :
    CompState × Effects :=
  match s.peerManager with
  | none => (s, Effects.nil)
  | some m =>
    match m.pc, m.remotePeerId with
    | some p, some rid =>
      if ok && !p.closed && p.remoteDesc.isNone then
        let p1 := { p with remoteDesc := some offer, localDesc := some ansDesc }
        let s1 := { s with peerManager := some { m with pc := some p1 } }
        let (s2, e2) := setCallStatus CallStatus.connected s1
        (s2, (emitMsg (OutMsg.answerCall ansDesc rid)).app e2)
      else
        setCallStatus CallStatus.callFailed s
    | _, _ => (s, Effects.nil)

/-- Source `PeerConnectionManager.handleAnswer` (lines 140-149).
`setRemoteDescription(answer)` succeeds exactly when the connection is open,
a local offer is pending and no remote description is set; the catch branch
sets status `Call Failed`. -/
def mgrHandleAnswer (answer : Nat) (s : CompState) : CompState × Effects :=
  match s.peerManager with
  | none => (s, Effects.nil)
  | some m =>
    match m.pc with
    | none => (s, Effects.nil)
    | some p =>
      if !p.closed && p.localDesc.isSome && p.remoteDesc.isNone then
        let p1 := { p with remoteDesc := some answer }
        ({ s with peerManager := some { m with pc := some p1 } }, Effects.nil)
      else
        setCallStatus CallStatus.callFailed s

/-- Source `PeerConnectionManager.handleIceCandidate` (lines 151-159).
`addIceCandidate` succeeds exactly when the connection is open and the remote
description is set; otherwise the error is caught and logged and the candidate
is dropped (no buffering exists in the source). -/
def mgrHandleIceCandidate (cand : Nat) (s : CompState) : CompState × Effects :=
  match s.peerManager with
  | none => (s, Effects.nil)
  | some m =>
    match m.pc with
    | none => (s, Effects.nil)
    | some p =>
      if !p.closed && p.remoteDesc.isSome then
        let p1 := { p with appliedCandidates := p.appliedCandidates ++ [cand] }
        ({ s with peerManager := some { m with pc := some p1 } }, Effects.nil)
      else
        (s, Effects.nil)

/-- Source `PeerConnectionManager.close` (lines 161-169): closes and drops the
connection, clears the peer id, sets status `Idle`, clears the remote stream. -/
def mgrClose (s : CompState) : CompState × Effects :=
  match s.peerManager with
  | none => (s, Effects.nil)
  | some m =>
    let m1 := { m with pc := (none : Option RTCPeerConn), remotePeerId := (none : Option String) }
    let (s1, e1) :=
      setCallStatus CallStatus.idle { s with peerManager := some m1 }
    ({ s1 with remoteStream := none }, e1)

/-- The `oniceconnectionstatechange` callback (lines 87-96), fired on the
current manager when its connection reports `st`: `connected` sets status
`Connected`; `disconnected` or `failed` sets status `Call Ended` and then
calls `this.close()`. -/
def onIceConnectionStateChange (st : IceState) (s : CompState) :
    CompState × Effects :=
  match s.peerManager with
  | none => (s, Effects.nil)
  | some m =>
    match m.pc with
    | none => (s, Effects.nil)
    | some _ =>
      match st with
      | IceState.connected => setCallStatus CallStatus.connected s
      | IceState.disconnected =>
        let (s1, e1) := setCallStatus CallStatus.callEnded s
        let (s2, e2) := mgrClose s1
        (s2, e1.app e2)
      | IceState.failed =>
        let (s1, e1) := setCallStatus CallStatus.callEnded s
        let (s2, e2) := mgrClose s1
        (s2, e1.app e2)
      | _ => (s, Effects.nil)

/-- The `onicecandidate` callback (lines 76-85): a newly gathered local
candidate is forwarded to the remote peer when one is set. -/
def localCandidateGathered (cand : Nat) (s : CompState) : CompState × Effects :=
  match s.peerManager with
  | none => (s, Effects.nil)
  | some m =>
    match m.remotePeerId with
    | some rid => (s, emitMsg (OutMsg.iceCandidate cand rid))
    | none => (s, Effects.nil)

/-- Source `getMedia` (lines 186-199): on success stores the stream and returns it;
on denial sets status `Media Access Denied` and returns null.  The returned
`Bool` is whether a stream was obtained. -/
def getMedia (mediaOk : Bool) (s : CompState) : CompState × Effects × Bool :=
  if mediaOk then
    ({ s with localStream := true }, Effects.nil, true)
  else
    let (s1, e1) := setCallStatus CallStatus.mediaAccessDenied s
    (s1, e1, false)

/-- Replacing `peerManagerRef.current` by a freshly constructed
`PeerConnectionManager` (lines 267-268 / 280-281).  If the previous manager
still holds an open connection it is leaked, not closed. -/
def replaceManager (s : CompState) : CompState :=
  let leaked :=
    match s.peerManager with
    | some m =>
      match m.pc with
      | some p => if p.closed then 0 else 1
      | none => 0
    | none => 0
  { s with
      peerManager := some { pc := none, isInitiator := false, remotePeerId := none },
      leakedOpenPCs := s.leakedOpenPCs + leaked }

/-- Source `startCall` (lines 256-272).  `mediaOk` is whether `getUserMedia`
succeeds when a stream must be acquired, `offerOk` whether offer creation
succeeds, `offerDesc` the produced offer. -/
def startCall (mediaOk offerOk : Bool) (offerDesc : Nat) (s : CompState) :
    CompState × Effects :=
  if s.targetId = "" then
    setCallStatus CallStatus.idle s
  else if s.callStatus = CallStatus.connected ∨ s.callStatus = CallStatus.waitingForAnswer then
    (s, Effects.nil)
  else
    let (s1, e1, got) :=
      if s.localStream then (s, Effects.nil, true) else getMedia mediaOk s
    if got then
      let s2 := replaceManager s1
      let (s3, e3) := mgrInitPeerConnection true s2.targetId s2
      let (s4, e4) := mgrCreateOffer offerOk offerDesc s3
      (s4, (e1.app e3).app e4)
    else
      (s1, e1)

/-- Source `answerCall` (lines 274-287).  `mediaOk` as in `startCall`; `ok` is
whether the answer-construction steps succeed, `ansDesc` the produced
answer. -/
def answerCall (mediaOk ok : Bool) (ansDesc : Nat) (s : CompState) :
    CompState × Effects :=
  match s.incomingCallData with
  | none => (s, Effects.nil)
  | some icd =>
    if s.callStatus = CallStatus.incomingCall then
      let (s1, e1, got) :=
        if s.localStream then (s, Effects.nil, true) else getMedia mediaOk s
      if got then
        let s2 := replaceManager s1
        let (s3, e3) := mgrInitPeerConnection false icd.callerId s2
        let (s4, e4) := mgrHandleOffer ok icd.offer ansDesc s3
        ({ s4 with incomingCallData := none }, (e1.app e3).app e4)
      else
        (s1, e1)
    else
      (s, Effects.nil)

/-- Source `endCall` (lines 289-304): closes the current manager if any (which
itself writes status `Idle`), emits `call-end` to the peer derived from
`targetId || incomingCallData?.callerId`, then writes status `Call Ended`
and clears remote stream, target id and incoming-call data. -/
def endCall (s : CompState) : CompState × Effects :=
  let (s1, e1) :=
    match s.peerManager with
    | some _ =>
      let (sa, ea) := mgrClose s
      ({ sa with peerManager := none }, ea)
    | none => (s, Effects.nil)
  let peerId : Option String :=
    if s.targetId = "" then
      match s.incomingCallData with
      | some icd => some icd.callerId
      | none => none
    else some s.targetId
  let e2 :=
    match peerId with
    | some pid => emitMsg (OutMsg.callEnd pid)
    | none => Effects.nil
  let (s3, e3) := setCallStatus CallStatus.callEnded s1
  let s4 := { s3 with remoteStream := none, targetId := "", incomingCallData := none }
  (s4, (e1.app e2).app e3)

/-- The Reject button handler (line 466): clears the incoming-call data and
sets status `Idle`. -/
def rejectCall (s : CompState) : CompState × Effects :=
  setCallStatus CallStatus.idle { s with incomingCallData := none }

/-- Inbound socket events. -/
inductive InMsg where
  | me (id : String)
  | callMade (offer : Nat) (callerId : String)
  | answerMade (answer : Nat)
  | iceCandidate (cand : Nat)
  | callEnd
  deriving DecidableEq, Repr

/-- The socket event names for which handlers are registered in the mount
effect (lines 201-240). -/
def registeredSocketEvents : List String :=
  ["me", "call-made", "answer-made", "ice-candidate"]

/-- Dispatch of an inbound socket event to the registered handlers
(lines 204-228).  `call-made` unconditionally stores the incoming-call data
and sets status `Incoming Call`; `answer-made` and `ice-candidate` are
forwarded to the current manager when one exists; no handler is registered
for an inbound `call-end`, so that event leaves the state untouched. -/
def dispatchSocketEvent (msg : InMsg) (s : CompState) : CompState × Effects :=
  match msg with
  | InMsg.me id => ({ s with currentId := id }, Effects.nil)
  | InMsg.callMade offer callerId =>
    setCallStatus CallStatus.incomingCall
      { s with incomingCallData := some { offer := offer, callerId := callerId } }
  | InMsg.answerMade answer =>
    match s.peerManager with
    | some _ => mgrHandleAnswer answer s
    | none => (s, Effects.nil)
  | InMsg.iceCandidate cand =>
    match s.peerManager with
    | some _ => mgrHandleIceCandidate cand s
    | none => (s, Effects.nil)
  | InMsg.callEnd => (s, Effects.nil)

/-- Number of live (created and never closed) peer connections attributable
to this component: leaked ones plus the current manager's open connection. -/
def openTransportCount (s : CompState) : Nat :=
  s.leakedOpenPCs +
    (match s.peerManager with
     | some m =>
       match m.pc with
       | some p => if p.closed then 0 else 1
       | none => 0
     | none => 0)

/-! Concrete states used to evaluate the model. -/

/-- A mid-call state: initiator "A" connected to "B", live peer connection
with both descriptions applied. -/
def connectedState : CompState :=
  { currentId := "A", targetId := "B", localStream := true, remoteStream := some 1,
    callStatus := CallStatus.connected,
    incomingCallData := none,
    peerManager := some
      { pc := some { localDesc := some 1, remoteDesc := some 2,
                     appliedCandidates := [], closed := false },
        isInitiator := true, remotePeerId := some "B" },
    leakedOpenPCs := 0 }

/-- An idle state with a target id typed in and a local stream held. -/
def idleState : CompState :=
  { currentId := "A", targetId := "B", localStream := true, remoteStream := none,
    callStatus := CallStatus.idle, incomingCallData := none,
    peerManager := none, leakedOpenPCs := 0 }

/-- A responder state: an offer from "A" is pending and status is Incoming Call. -/
def respState : CompState :=
  { currentId := "B", targetId := "", localStream := true, remoteStream := none,
    callStatus := CallStatus.incomingCall,
    incomingCallData := some { offer := 9, callerId := "A" },
    peerManager := none, leakedOpenPCs := 0 }

/-- An initiator state waiting for an answer: local offer set, no remote
description yet. -/
def preRemoteState : CompState :=
  { currentId := "A", targetId := "B", localStream := true, remoteStream := none,
    callStatus := CallStatus.waitingForAnswer,
    incomingCallData := none,
    peerManager := some
      { pc := some { localDesc := some 1, remoteDesc := none,
                     appliedCandidates := [], closed := false },
        isInitiator := true, remotePeerId := some "B" },
    leakedOpenPCs := 0 }

/-- An initiator state whose session is already answered: remote description
set, still awaiting the transport to connect. -/
def answeredState : CompState :=
  { currentId := "A", targetId := "B", localStream := true, remoteStream := none,
    callStatus := CallStatus.waitingForAnswer,
    incomingCallData := none,
    peerManager := some
      { pc := some { localDesc := some 1, remoteDesc := some 2,
                     appliedCandidates := [], closed := false },
        isInitiator := true, remotePeerId := some "B" },
    leakedOpenPCs := 0 }

/-- A responder state with an incoming offer pending and a target id typed
into the call box: status is Incoming Call and the offer from "A" is held. -/
def incomingWithTargetState : CompState :=
  { currentId := "B", targetId := "C", localStream := true, remoteStream := none,
    callStatus := CallStatus.incomingCall,
    incomingCallData := some { offer := 9, callerId := "A" },
    peerManager := none, leakedOpenPCs := 0 }

/-! Claim theorems. -/

/-- C1.  When the transport reports `failed` mid-call, the handler writes the
terminal status `Call Ended` but then calls `close()`, which performs a second,
housekeeping status write to `Idle`: the terminal status is overwritten, the
final caller-visible status is `Idle`, contradicting the claim that the
terminal status is published exactly once and never overwritten.  (The
transport itself is indeed closed.) -/
theorem c1_failed_overwrites_terminal_status :
    (onIceConnectionStateChange IceState.failed connectedState).2.statusWrites
        = [CallStatus.callEnded, CallStatus.idle] ∧
    (onIceConnectionStateChange IceState.failed connectedState).1.callStatus
        = CallStatus.idle ∧
    (onIceConnectionStateChange IceState.failed connectedState).1.peerManager
        = some { pc := none, isInitiator := true, remotePeerId := none } := by
  refine ⟨rfl, rfl, rfl⟩

/-- C2.  A remote candidate arriving before the remote description is set is
not buffered: `addIceCandidate` fails, the error is caught and logged, and the
candidate is dropped (the state is unchanged).  After the answer is later
applied, the dropped candidate is still absent: it is never applied, contrary
to the claim that premature candidates are buffered and applied once the
remote description is set. -/
theorem c2_premature_candidate_dropped :
    (dispatchSocketEvent (InMsg.iceCandidate 7) preRemoteState).1 = preRemoteState ∧
    ((dispatchSocketEvent (InMsg.answerMade 4)
        (dispatchSocketEvent (InMsg.iceCandidate 7) preRemoteState).1).1.peerManager.map
          (fun m => m.pc.map (fun p => p.appliedCandidates)))
      = some (some []) := by
  refine ⟨rfl, rfl⟩

/-- C3.  Starting a call whose offer creation fails leaves the manager holding
an open peer connection and status `Call Failed`; a second `startCall` then
constructs a fresh manager and overwrites `peerManagerRef` without closing the
old connection, so two live transports exist at once, contradicting the
at-most-one invariant. -/
theorem c3_two_live_transports :
    openTransportCount (startCall true false 5 idleState).1 = 1 ∧
    (startCall true false 5 idleState).1.callStatus = CallStatus.callFailed ∧
    openTransportCount
      (startCall true true 6 (startCall true false 5 idleState).1).1 = 2 := by
  refine ⟨rfl, rfl, rfl⟩

/-- C4.  No handler is registered for an inbound `call-end` socket event
(the mount effect registers only `me`, `call-made`, `answer-made` and
`ice-candidate`), so receiving a remote CallEnd changes nothing: the status
does not become `Call Ended` and the transport is not closed, contradicting
the claim that remote CallEnd drives the local teardown path. -/
theorem c4_remote_call_end_ignored :
    ("call-end" ∉ registeredSocketEvents) ∧
    ∀ s : CompState, dispatchSocketEvent InMsg.callEnd s = (s, Effects.nil) := by
  exact ⟨by decide, fun _ => rfl⟩

/-- C5.  `endCall` first calls the manager's `close()`, which performs a
status write to `Idle`, and only then writes `Call Ended`: two externally
visible status writes occur, with the intermediate `Idle` published between
resource release and the final status, contradicting the claim of exactly one
externally-visible status write.  (The final status is `Call Ended` and the
manager is released.) -/
theorem c5_end_call_double_status_write :
    (endCall connectedState).2.statusWrites = [CallStatus.idle, CallStatus.callEnded] ∧
    (endCall connectedState).1.callStatus = CallStatus.callEnded ∧
    (endCall connectedState).1.peerManager = none := by
  refine ⟨rfl, rfl, rfl⟩

/-- C6 counterexample.  A responder answering an incoming call has its status
set to `Connected` by `handleOffer` immediately after the answer is produced
and sent, with no transport `connected` event having occurred, refuting the
claim that the status becomes Connected only when the transport reports
connected. -/
theorem c6_counterexample :
    (answerCall true true 5 respState).2.statusWrites
        = [CallStatus.connecting, CallStatus.connected] ∧
    (answerCall true true 5 respState).1.callStatus = CallStatus.connected := by
  refine ⟨rfl, rfl⟩

/-- C6 amended.  For an initiator, applying a received answer performs no
status write and leaves the status unchanged, and the transport reporting
`connected` is what sets status `Connected`; but for a responder the status is
set to `Connected` immediately upon successfully producing and sending the
answer, before any transport `connected` report. -/
theorem c6_amended_connected_only_for_initiator (s : CompState)
    (m : PeerConnectionManager) (p : RTCPeerConn) (d answer : Nat)
    (hm : s.peerManager = some m) (hp : m.pc = some p)
    (hc : p.closed = false) (hl : p.localDesc = some d) (hr : p.remoteDesc = none) :
    (mgrHandleAnswer answer s).2.statusWrites = [] ∧
    (mgrHandleAnswer answer s).1.callStatus = s.callStatus ∧
    (onIceConnectionStateChange IceState.connected s).1.callStatus
        = CallStatus.connected ∧
    (onIceConnectionStateChange IceState.connected s).2.statusWrites
        = [CallStatus.connected] ∧
    (answerCall true true 5 respState).2.statusWrites
        = [CallStatus.connecting, CallStatus.connected] := by
  simp [mgrHandleAnswer, onIceConnectionStateChange, setCallStatus, Effects.nil,
    hm, hp, hc, hl, hr]
  rfl

/-- C6 witness. -/
theorem c6_amended_connected_only_for_initiator_witness :
    (mgrHandleAnswer 4 preRemoteState).2.statusWrites = [] ∧
    (mgrHandleAnswer 4 preRemoteState).1.callStatus = preRemoteState.callStatus ∧
    (onIceConnectionStateChange IceState.connected preRemoteState).1.callStatus
        = CallStatus.connected ∧
    (onIceConnectionStateChange IceState.connected preRemoteState).2.statusWrites
        = [CallStatus.connected] ∧
    (answerCall true true 5 respState).2.statusWrites
        = [CallStatus.connecting, CallStatus.connected] :=
  c6_amended_connected_only_for_initiator preRemoteState
    { pc := some { localDesc := some 1, remoteDesc := none,
                   appliedCandidates := [], closed := false },
      isInitiator := true, remotePeerId := some "B" }
    { localDesc := some 1, remoteDesc := none,
      appliedCandidates := [], closed := false }
    1 4 rfl rfl rfl rfl rfl

/-- C7 counterexample.  Applying a second inbound CallAnswer to a session
whose remote description is already set is not non-fatal: the caught error
sets the status to `Call Failed`, so the status does change (from
`Waiting for answer...`), refuting the claim that the stale answer is ignored
with no status change. -/
theorem c7_counterexample :
    answeredState.callStatus = CallStatus.waitingForAnswer ∧
    (dispatchSocketEvent (InMsg.answerMade 7) answeredState).1.callStatus
        = CallStatus.callFailed ∧
    (dispatchSocketEvent (InMsg.answerMade 7) answeredState).2.statusWrites
        = [CallStatus.callFailed] := by
  refine ⟨rfl, rfl, rfl⟩

/-- C7 amended.  Applying a second inbound CallAnswer to a session whose
remote description is already set fails; the error is caught and logged and
the stored remote description (indeed the whole manager) is not mutated, but
the status is set to `Call Failed` rather than left unchanged. -/
theorem c7_amended_stale_answer (s : CompState) (m : PeerConnectionManager)
    (p : RTCPeerConn) (d answer : Nat)
    (hm : s.peerManager = some m) (hp : m.pc = some p)
    (hr : p.remoteDesc = some d) :
    (mgrHandleAnswer answer s).1.peerManager = s.peerManager ∧
    (mgrHandleAnswer answer s).1.callStatus = CallStatus.callFailed ∧
    (mgrHandleAnswer answer s).2.statusWrites = [CallStatus.callFailed] := by
  simp [mgrHandleAnswer, setCallStatus, hm, hp, hr]

/-- C7 witness. -/
theorem c7_amended_stale_answer_witness :
    (mgrHandleAnswer 7 answeredState).1.peerManager = answeredState.peerManager ∧
    (mgrHandleAnswer 7 answeredState).1.callStatus = CallStatus.callFailed ∧
    (mgrHandleAnswer 7 answeredState).2.statusWrites = [CallStatus.callFailed] :=
  c7_amended_stale_answer answeredState
    { pc := some { localDesc := some 1, remoteDesc := some 2,
                   appliedCandidates := [], closed := false },
      isInitiator := true, remotePeerId := some "B" }
    { localDesc := some 1, remoteDesc := some 2,
      appliedCandidates := [], closed := false }
    2 7 rfl rfl rfl

/-- C8.  When media acquisition is denied, both `startCall` (past its
target-id and status guards, with no stream held) and `answerCall` (with a
pending incoming call and no stream held) set status `Media Access Denied`,
leave the peer-manager slot untouched (no Transport Session is created) and
send no message. -/
theorem c8_media_denied_no_transport (s t : CompState) (icd : IncomingCallData)
    (offerOk ok : Bool) (d a : Nat)
    (hs1 : ¬ s.targetId = "")
    (hs2 : ¬ (s.callStatus = CallStatus.connected ∨
              s.callStatus = CallStatus.waitingForAnswer))
    (hs3 : s.localStream = false)
    (ht1 : t.incomingCallData = some icd)
    (ht2 : t.callStatus = CallStatus.incomingCall)
    (ht3 : t.localStream = false) :
    ((startCall false offerOk d s).1.callStatus = CallStatus.mediaAccessDenied ∧
     (startCall false offerOk d s).1.peerManager = s.peerManager ∧
     (startCall false offerOk d s).2.msgs = []) ∧
    ((answerCall false ok a t).1.callStatus = CallStatus.mediaAccessDenied ∧
     (answerCall false ok a t).1.peerManager = t.peerManager ∧
     (answerCall false ok a t).2.msgs = []) := by
  constructor
  · simp [startCall, getMedia, setCallStatus, Effects.nil, hs1, hs2, hs3]
  · simp [answerCall, getMedia, setCallStatus, Effects.nil, ht1, ht2, ht3]

/-- C8 witness. -/
theorem c8_media_denied_no_transport_witness :
    ((startCall false true 5 { idleState with localStream := false }).1.callStatus
        = CallStatus.mediaAccessDenied ∧
     (startCall false true 5 { idleState with localStream := false }).1.peerManager
        = ({ idleState with localStream := false } : CompState).peerManager ∧
     (startCall false true 5 { idleState with localStream := false }).2.msgs = []) ∧
    ((answerCall false true 6 { respState with localStream := false }).1.callStatus
        = CallStatus.mediaAccessDenied ∧
     (answerCall false true 6 { respState with localStream := false }).1.peerManager
        = ({ respState with localStream := false } : CompState).peerManager ∧
     (answerCall false true 6 { respState with localStream := false }).2.msgs = []) :=
  c8_media_denied_no_transport
    { idleState with localStream := false }
    { respState with localStream := false }
    { offer := 9, callerId := "A" }
    true true 5 6 (by decide) (by decide) rfl rfl rfl rfl

/-- C9 counterexample.  Two conjuncts of the claim fail.  First, the
`call-made` handler is unconditional: receiving a CallOffer while the status
is `Connected` (not `Idle`) still transitions the status to `Incoming Call`,
refuting that Idle is the only state from which a received CallOffer causes a
status transition.  Second, the pending offer is not held only while the
status is `Incoming Call`: invoking `startCall` from `Incoming Call` with a
target id typed in passes the status guard, moves the status to
`Waiting for answer...`, and never clears `incomingCallData`, so the pending
offer remains held while the status is no longer `Incoming Call`. -/
theorem c9_counterexample :
    (connectedState.callStatus = CallStatus.connected ∧
     (dispatchSocketEvent (InMsg.callMade 9 "C") connectedState).1.callStatus
        = CallStatus.incomingCall) ∧
    ((startCall true true 6 incomingWithTargetState).1.callStatus
        = CallStatus.waitingForAnswer ∧
     (startCall true true 6 incomingWithTargetState).1.incomingCallData
        = some { offer := 9, callerId := "A" }) := by
  refine ⟨⟨rfl, rfl⟩, rfl, rfl⟩

/-- C9 amended.  Receiving a CallOffer, in any state, stores the offer and
its sender as the pending incoming-call data and transitions the status to
`Incoming Call` with a single status write; the handler is unconditional, so
this transition is not restricted to the Idle state.  (Both restrictions of
the original claim — that only Idle transitions, and that the pending offer is
held only while the status is Incoming Call — are refuted by the
counterexample and therefore dropped.) -/
theorem c9_amended_call_offer_unconditional (s : CompState) (offer : Nat)
    (callerId : String) :
    (dispatchSocketEvent (InMsg.callMade offer callerId) s).1.callStatus
        = CallStatus.incomingCall ∧
    (dispatchSocketEvent (InMsg.callMade offer callerId) s).1.incomingCallData
        = some { offer := offer, callerId := callerId } ∧
    (dispatchSocketEvent (InMsg.callMade offer callerId) s).2.statusWrites
        = [CallStatus.incomingCall] :=
  ⟨rfl, rfl, rfl⟩

/-- C10.  Invoking `startCall` with an empty target id, from any state, sets
the status to `Idle` (this check precedes the status guard, so even a
non-idle status such as Connected is discarded), leaves the peer-manager slot
untouched (no Transport Session is created) and emits no message. -/
theorem c10_empty_target_resets_to_idle (s : CompState) (mediaOk offerOk : Bool)
    (d : Nat) (h : s.targetId = "") :
    (startCall mediaOk offerOk d s).1.callStatus = CallStatus.idle ∧
    (startCall mediaOk offerOk d s).1.peerManager = s.peerManager ∧
    (startCall mediaOk offerOk d s).2.msgs = [] ∧
    (startCall mediaOk offerOk d s).2.statusWrites = [CallStatus.idle] := by
  simp [startCall, setCallStatus, h]

/-- C10 witness. -/
theorem c10_empty_target_resets_to_idle_witness :
    (startCall true true 5 { connectedState with targetId := "" }).1.callStatus
        = CallStatus.idle ∧
    (startCall true true 5 { connectedState with targetId := "" }).1.peerManager
        = ({ connectedState with targetId := "" } : CompState).peerManager ∧
    (startCall true true 5 { connectedState with targetId := "" }).2.msgs = [] ∧
    (startCall true true 5 { connectedState with targetId := "" }).2.statusWrites
        = [CallStatus.idle] :=
  c10_empty_target_resets_to_idle { connectedState with targetId := "" }
    true true 5 rfl
